import Mathlib

/-!
Verification of the ray-tracer skeleton `renderer_skeleton.py`.

The numeric type of the Python program (float) is modelled by the real
numbers.  Python expressions that can raise `ZeroDivisionError` are modelled
by `Option`-returning functions that return `none` exactly when the Python
code would raise.
-/

/-- Modelled from the spec: the 3-component vector primitive of the missing
external library `helpers.py` (section 2, "Vector primitive"): a 3-component
float vector with add, subtract, scale, dot, cross, normalize and length. -/
structure vec3 where
  x : ℝ
  y : ℝ
  z : ℝ

instance : Add vec3 := ⟨fun a b => ⟨a.x + b.x, a.y + b.y, a.z + b.z⟩⟩

instance : Sub vec3 := ⟨fun a b => ⟨a.x - b.x, a.y - b.y, a.z - b.z⟩⟩

instance : SMul ℝ vec3 := ⟨fun r v => ⟨r * v.x, r * v.y, r * v.z⟩⟩

noncomputable instance : HDiv vec3 ℝ vec3 := ⟨fun v r => ⟨v.x / r, v.y / r, v.z / r⟩⟩

/-- Modelled from the spec: dot product of the vector primitive. -/
def vec3.dot (a b : vec3) : ℝ := a.x * b.x + a.y * b.y + a.z * b.z

/-- Modelled from the spec: cross product of the vector primitive. -/
def vec3.cross (a b : vec3) : vec3 :=
  ⟨a.y * b.z - a.z * b.y, a.z * b.x - a.x * b.z, a.x * b.y - a.y * b.x⟩

/-- Modelled from the spec: euclidean length of the vector primitive. -/
noncomputable def vec3.length (v : vec3) : ℝ := Real.sqrt (v.dot v)

/-- Modelled from the spec: normalization of the vector primitive
(the vector divided by its length). -/
noncomputable def vec3.norm (v : vec3) : vec3 := v / v.length

@[simp] lemma vec3.add_mk (a b c d e f : ℝ) :
    vec3.mk a b c + vec3.mk d e f = vec3.mk (a + d) (b + e) (c + f) := rfl

@[simp] lemma vec3.sub_mk (a b c d e f : ℝ) :
    vec3.mk a b c - vec3.mk d e f = vec3.mk (a - d) (b - e) (c - f) := rfl

@[simp] lemma vec3.smul_mk (r a b c : ℝ) :
    r • vec3.mk a b c = vec3.mk (r * a) (r * b) (r * c) := rfl

@[simp] lemma vec3.div_mk (a b c r : ℝ) :
    vec3.mk a b c / r = vec3.mk (a / r) (b / r) (c / r) := rfl

@[simp] lemma vec3.dot_mk (a b c d e f : ℝ) :
    (vec3.mk a b c).dot (vec3.mk d e f) = a * d + b * e + c * f := rfl

@[simp] lemma vec3.cross_mk (a b c d e f : ℝ) :
    (vec3.mk a b c).cross (vec3.mk d e f) =
      vec3.mk (b * f - c * e) (c * d - a * f) (a * e - b * d) := rfl

noncomputable instance : DecidableEq vec3 := fun _ _ => Classical.propDecidable _

/-- Scene objects (source `class Renderable` and its working subclass
`Sphere`; the `Triangle` subclass of the source does not parse — its
`intersect` body is a syntax error — and is treated separately below). -/
inductive Renderable where
  | sphere (origin : vec3) (radius : ℝ)

noncomputable instance : DecidableEq Renderable := fun _ _ => Classical.propDecidable _

/-- Modelled from the spec: the `RayIntersection` record of the missing
`helpers.py`, holding ray origin, ray direction, the hit renderable, the hit
point and the hit distance (source constructor call
`RayIntersection(origin, direction, self, intersection, len)`). -/
structure RayIntersection where
  origin : vec3
  direction : vec3
  renderable : Renderable
  location : vec3
  length : ℝ

/-- Source `Sphere.intersect` (lines 28-46): quadratic ray/sphere test.
`a = direction.dot(direction)`, `b = 2*direction.dot(origin - self.origin)`,
`c = (origin-self.origin).dot(origin-self.origin) - radius*radius`,
`D = b*b - 4*a*c`; if `D >= 0` take `len = min(x1,x2)`, replaced by
`max(x1,x2)` when negative; return `None` when `len < 0`, otherwise a
`RayIntersection` at `len * direction + origin` with distance `len`. -/
noncomputable def Sphere.intersect (center : vec3) (radius : ℝ)
    (origin direction : vec3) : Option RayIntersection :=
  let a := direction.dot direction
  let b := 2 * direction.dot (origin - center)
  let c := (origin - center).dot (origin - center) - radius * radius
  let D := b * b - 4 * a * c
  let len : ℝ :=
    if 0 ≤ D then
      let x1 := (-b + Real.sqrt D) / (2 * a)
      let x2 := (-b - Real.sqrt D) / (2 * a)
      if min x1 x2 < 0 then max x1 x2 else min x1 x2
    else -1
  if 0 ≤ len then
    some { origin := origin, direction := direction,
           renderable := Renderable.sphere center radius,
           location := len • direction + origin, length := len }
  else none

/-- Source `Renderable.intersect` dispatch (duck typing in Python): the only
parsing variant is `Sphere`. -/
noncomputable def Renderable.intersect : Renderable → vec3 → vec3 → Option RayIntersection
  | .sphere so r, origin, direction => Sphere.intersect so r origin direction

/-- Source `Sphere.normal` (lines 50-52): `(location - self.origin).norm()`. -/
noncomputable def Renderable.normal : Renderable → vec3 → vec3
  | .sphere so _, location => (location - so).norm

/-- Source `Triangle.__init__` line 61: the precomputed field
`self.normal = (self.v2 - self.v1).cross(self.v3 - self.v3).norm()`
(note `self.v3 - self.v3`, the zero vector, exactly as written in the
source).  The method `Triangle.normal` returns this field. -/
noncomputable def Triangle.normalField (v1 v2 v3 : vec3) : vec3 :=
  ((v2 - v1).cross (v3 - v3)).norm

/-- Modelled from the spec: the intended precomputed unit face normal of a
triangle, the normalized cross product of two edge vectors (spec section
4.2); stated for refinement comparison with `Triangle.normalField`. -/
noncomputable def Triangle.faceNormal (v1 v2 v3 : vec3) : vec3 :=
  ((v2 - v1).cross (v3 - v1)).norm

/-- Light sources (source `class Light` and `class PhongLight`). -/
inductive Light where
  | const (position : vec3) (colour : vec3)
  | phong (position : vec3) (specular : vec3) (diffuse : vec3)

/-- Source `class Renderer` state (lines 108-112): camera position, ordered
light list, ordered renderable list. -/
structure Renderer where
  camera : vec3
  lights : List Light
  renderables : List Renderable

/-- Source `Light.illumination` (line 81-82) returns the fixed colour;
source `PhongLight.illumination` (lines 97-102) computes
`max(0, direct.dot(norm)) * self.specular` with
`direct = (self.position - location).norm()` and
`norm = renderable.normal(location)`.  The `renderer` argument is passed by
the source but never read. -/
noncomputable def Light.illumination :
    Light → Renderable → vec3 → Renderer → vec3
  | .const _ colour, _, _, _ => colour
  | .phong pos specular _, renderable, location, _ =>
      let norm := renderable.normal location
      let direct := (pos - location).norm
      max 0 (direct.dot norm) • specular

/-- The intermediate candidate list of source `Renderer.raycast`
(lines 123-128): intersect the given (already normalized) direction against
every renderable not in `exclude` and drop the misses. -/
noncomputable def raycastCandidates (rend : Renderer) (origin d_norm : vec3)
    (exclude : List Renderable) : List RayIntersection :=
  (rend.renderables.filter (fun r => decide (¬ r ∈ exclude))).filterMap
    (fun r => r.intersect origin d_norm)

/-- One step of Python `min(intersections, key=lambda x: x.length)`: keep the
current minimum, replacing it only on a strictly smaller key (so ties keep
the earlier element). -/
noncomputable def nearestStep (acc x : RayIntersection) : RayIntersection :=
  if x.length < acc.length then x else acc

/-- Source `Renderer.raycast` (lines 119-130): normalize the direction,
collect intersections of renderables not in `exclude`, return `False`
(modelled `none`) when none remain, otherwise the minimum by `length`. -/
noncomputable def Renderer.raycast (rend : Renderer) (origin direction : vec3)
    (exclude : List Renderable) : Option RayIntersection :=
  match raycastCandidates rend origin direction.norm exclude with
  | [] => none
  | h :: t => some (t.foldl nearestStep h)

/-- Source `Renderer.get_lighting` (lines 135-141): sum the illumination of
every light over the record, then divide by `len(self.lights)`.  The source
has no guard: with an empty light list Python raises `ZeroDivisionError`,
modelled here as `none`. -/
noncomputable def Renderer.get_lighting (rend : Renderer)
    (ri : RayIntersection) : Option vec3 :=
  let output := rend.lights.foldl
    (fun acc light => acc + light.illumination ri.renderable ri.location rend)
    (vec3.mk 0 0 0)
  if rend.lights.length = 0 then none
  else some (output / (rend.lights.length : ℝ))

/-- Python `int()` on a float: truncation toward zero. -/
noncomputable def intTrunc (r : ℝ) : ℤ := if 0 ≤ r then ⌊r⌋ else ⌈r⌉

/-- Source `Renderer.render` (lines 148-162): cast the camera ray for pixel
`(x, y)` with direction `(x/width - 0.5, y/height - 0.5, 1)`; on a hit
return `(int(l.x*255), int(l.y*255), int(l.z*255))` (propagating a
`get_lighting` error), on a miss return `(255, 255, 255)`. -/
noncomputable def Renderer.render (rend : Renderer) (x y width height : ℕ) :
    Option (ℤ × ℤ × ℤ) :=
  match rend.raycast rend.camera
      (vec3.mk ((x : ℝ) / (width : ℝ) - 0.5) ((y : ℝ) / (height : ℝ) - 0.5) 1) [] with
  | some result =>
      match rend.get_lighting result with
      | some lighting =>
          some (intTrunc (lighting.x * 255), intTrunc (lighting.y * 255),
                intTrunc (lighting.z * 255))
      | none => none
  | none => some (255, 255, 255)

/-- The quantities of the sphere quadratic named by the specification:
discriminant `D = b^2 - 4ac`. -/
noncomputable def sphere_D (center : vec3) (radius : ℝ) (origin direction : vec3) : ℝ :=
  (2 * direction.dot (origin - center)) * (2 * direction.dot (origin - center)) -
    4 * direction.dot direction *
      ((origin - center).dot (origin - center) - radius * radius)

/-- Root `t1 = (-b + sqrt D) / (2a)` of the sphere quadratic. -/
noncomputable def sphere_t1 (center : vec3) (radius : ℝ) (origin direction : vec3) : ℝ :=
  (-(2 * direction.dot (origin - center)) +
      Real.sqrt (sphere_D center radius origin direction)) /
    (2 * direction.dot direction)

/-- Root `t2 = (-b - sqrt D) / (2a)` of the sphere quadratic. -/
noncomputable def sphere_t2 (center : vec3) (radius : ℝ) (origin direction : vec3) : ℝ :=
  (-(2 * direction.dot (origin - center)) -
      Real.sqrt (sphere_D center radius origin direction)) /
    (2 * direction.dot direction)

/-- Concrete test sphere of radius 1/2 at (0,0,8) (the farther object). -/
noncomputable def sphereA : Renderable := Renderable.sphere (vec3.mk 0 0 8) (1/2)

/-- Concrete test sphere of radius 1/2 at (0,0,4) (the nearer object, as in
the scene of the main block of the source). -/
noncomputable def sphereB : Renderable := Renderable.sphere (vec3.mk 0 0 4) (1/2)

/-- Hit record of the ray from the origin along (0,0,1) on `sphereA`. -/
noncomputable def recA : RayIntersection :=
  RayIntersection.mk (vec3.mk 0 0 0) (vec3.mk 0 0 1) sphereA (vec3.mk 0 0 (15/2)) (15/2)

/-- Hit record of the ray from the origin along (0,0,1) on `sphereB`. -/
noncomputable def recB : RayIntersection :=
  RayIntersection.mk (vec3.mk 0 0 0) (vec3.mk 0 0 1) sphereB (vec3.mk 0 0 (7/2)) (7/2)

/-- Concrete two-sphere scene (farther sphere listed first). -/
noncomputable def rendC2 : Renderer :=
  Renderer.mk (vec3.mk 0 0 0) [] [sphereA, sphereB]

/-- Concrete scene with one constant light of colour (2,2,2) (channels above
1) and the sphere of the main block of the source. -/
noncomputable def rendC5 : Renderer :=
  Renderer.mk (vec3.mk 0 0 0) [Light.const (vec3.mk 0 0 0) (vec3.mk 2 2 2)] [sphereB]

lemma vec3.zero_add_v (v : vec3) : vec3.mk 0 0 0 + v = v := by
  cases v; simp

lemma vec3.div_one_v (v : vec3) : v / (1 : ℝ) = v := by
  cases v; simp

/-- Claim C10: the PhongLight `illumination` method never reads the `diffuse`
field: two PhongLights with the same position and specular colour but
different diffuse colours illuminate every renderable, location and
renderer identically. -/
theorem phong_diffuse_irrelevant (pos specular d1 d2 : vec3)
    (renderable : Renderable) (location : vec3) (rend : Renderer) :
    (Light.phong pos specular d1).illumination renderable location rend =
      (Light.phong pos specular d2).illumination renderable location rend := rfl

/-- Claim C3 (code bug): `Renderer.get_lighting` has no guard for an empty
light list; it divides by `len(self.lights) = 0`, which raises
`ZeroDivisionError` in Python (modelled: returns `none`, not black). -/
theorem get_lighting_empty (rend : Renderer) (ri : RayIntersection)
    (hl : rend.lights = []) : rend.get_lighting ri = none := by
  unfold Renderer.get_lighting
  rw [hl]
  simp

/-- Witness for C3 at a concrete renderer with no lights. -/
theorem get_lighting_empty_witness :
    (Renderer.mk (vec3.mk 0 0 0) [] []).lights = [] ∧
      (Renderer.mk (vec3.mk 0 0 0) [] []).get_lighting
        (RayIntersection.mk (vec3.mk 0 0 0) (vec3.mk 0 0 1)
          (Renderable.sphere (vec3.mk 0 0 4) 1) (vec3.mk 0 0 3) 3) = none :=
  ⟨rfl, get_lighting_empty _ _ rfl⟩

/-- Claim C6: with exactly one light, `get_lighting` returns exactly the
illumination contribution of that light (the sum over one light divided by the
light count 1). -/
theorem get_lighting_single (rend : Renderer) (ri : RayIntersection)
    (l : Light) (hl : rend.lights = [l]) :
    rend.get_lighting ri =
      some (l.illumination ri.renderable ri.location rend) := by
  unfold Renderer.get_lighting
  rw [hl]
  simp only [List.foldl_cons, List.foldl_nil, List.length_cons,
    List.length_nil, Nat.cast_one]
  norm_num
  rw [vec3.zero_add_v, vec3.div_one_v]

/-- Witness for C6 at a concrete one-light renderer. -/
theorem get_lighting_single_witness :
    (Renderer.mk (vec3.mk 0 0 0) [Light.const (vec3.mk 1 1 1) (vec3.mk 1 0 0)] []).lights
        = [Light.const (vec3.mk 1 1 1) (vec3.mk 1 0 0)] ∧
      (Renderer.mk (vec3.mk 0 0 0) [Light.const (vec3.mk 1 1 1) (vec3.mk 1 0 0)] []).get_lighting
          (RayIntersection.mk (vec3.mk 0 0 0) (vec3.mk 0 0 1)
            (Renderable.sphere (vec3.mk 0 0 4) 1) (vec3.mk 0 0 3) 3) =
        some ((Light.const (vec3.mk 1 1 1) (vec3.mk 1 0 0)).illumination
          (Renderable.sphere (vec3.mk 0 0 4) 1) (vec3.mk 0 0 3)
          (Renderer.mk (vec3.mk 0 0 0) [Light.const (vec3.mk 1 1 1) (vec3.mk 1 0 0)] [])) :=
  ⟨rfl, get_lighting_single _ _ _ rfl⟩

/-- Claim C7: when the camera ray of pixel `(x, y)` hits no renderable,
`Renderer.render` returns the pure white background `(255, 255, 255)`. -/
theorem render_miss_white (rend : Renderer) (x y width height : ℕ)
    (hmiss : rend.raycast rend.camera
      (vec3.mk ((x : ℝ) / (width : ℝ) - 0.5) ((y : ℝ) / (height : ℝ) - 0.5) 1) []
        = none) :
    rend.render x y width height = some (255, 255, 255) := by
  unfold Renderer.render
  rw [hmiss]

/-- Witness for C7: an empty scene misses at every pixel, here pixel (0,0)
of a 2 by 2 frame. -/
theorem render_miss_white_witness :
    (Renderer.mk (vec3.mk 0 0 0) [] []).raycast (vec3.mk 0 0 0)
        (vec3.mk ((0 : ℕ) / ((2 : ℕ) : ℝ) - 0.5) ((0 : ℕ) / ((2 : ℕ) : ℝ) - 0.5) 1) []
        = none ∧
      (Renderer.mk (vec3.mk 0 0 0) [] []).render 0 0 2 2 = some (255, 255, 255) := by
  have h : (Renderer.mk (vec3.mk 0 0 0) [] []).raycast (vec3.mk 0 0 0)
      (vec3.mk ((0 : ℕ) / ((2 : ℕ) : ℝ) - 0.5) ((0 : ℕ) / ((2 : ℕ) : ℝ) - 0.5) 1) []
      = none := by
    unfold Renderer.raycast raycastCandidates
    simp
  exact ⟨h, render_miss_white _ 0 0 2 2 h⟩

/-- Claim C9 (code bug): the precomputed triangle normal of the source is
`((v2 - v1).cross (v3 - v3)).norm()` — a cross product with the zero vector
`v3 - v3` — so it is the zero vector for every input (in Python the final
`norm()` divides by zero and crashes), instead of the unit face normal
`((v2 - v1).cross (v3 - v1)).norm()` required by the spec, which at the
non-collinear vertices (0,0,0), (1,0,0), (0,1,0) is (0,0,1). -/
theorem triangle_normal_bug :
    (∀ v1 v2 v3 : vec3, Triangle.normalField v1 v2 v3 = vec3.mk 0 0 0) ∧
      Triangle.faceNormal (vec3.mk 0 0 0) (vec3.mk 1 0 0) (vec3.mk 0 1 0) =
        vec3.mk 0 0 1 ∧
      Triangle.normalField (vec3.mk 0 0 0) (vec3.mk 1 0 0) (vec3.mk 0 1 0) =
        vec3.mk 0 0 0 := by
  have hzero : ∀ v1 v2 v3 : vec3, Triangle.normalField v1 v2 v3 = vec3.mk 0 0 0 := by
    intro v1 v2 v3
    obtain ⟨a, b, c⟩ := v1
    obtain ⟨d, e, f⟩ := v2
    obtain ⟨g, h, i⟩ := v3
    unfold Triangle.normalField vec3.norm vec3.length
    norm_num
  refine ⟨hzero, ?_, hzero _ _ _⟩
  unfold Triangle.faceNormal vec3.norm vec3.length
  norm_num [Real.sqrt_one]

/-- Claim C4: PhongLight illumination equals `max(0, direct . norm)` times
the specular colour of the light per channel; with channel-nonnegative specular
colour (the data-model invariant: each channel in [0,1]) every output
channel is nonnegative, and a surface facing strictly away from the light
(negative dot product) is illuminated exactly black. -/
theorem phong_illumination_correct (pos specular diffuse : vec3)
    (renderable : Renderable) (location : vec3) (rend : Renderer)
    (hx : 0 ≤ specular.x) (hy : 0 ≤ specular.y) (hz : 0 ≤ specular.z) :
    (Light.phong pos specular diffuse).illumination renderable location rend =
      max 0 (((pos - location).norm).dot (renderable.normal location)) • specular ∧
    0 ≤ ((Light.phong pos specular diffuse).illumination renderable location rend).x ∧
    0 ≤ ((Light.phong pos specular diffuse).illumination renderable location rend).y ∧
    0 ≤ ((Light.phong pos specular diffuse).illumination renderable location rend).z ∧
    (((pos - location).norm).dot (renderable.normal location) < 0 →
      (Light.phong pos specular diffuse).illumination renderable location rend =
        vec3.mk 0 0 0) := by
  obtain ⟨sx, sy, sz⟩ := specular
  have he : (Light.phong pos (vec3.mk sx sy sz) diffuse).illumination renderable location rend =
      max 0 (((pos - location).norm).dot (renderable.normal location)) • vec3.mk sx sy sz := rfl
  simp only [vec3.smul_mk] at he
  simp only [he]
  have hmax : 0 ≤ max 0 (((pos - location).norm).dot (renderable.normal location)) :=
    le_max_left 0 _
  simp only [vec3.x, vec3.y, vec3.z] at hx hy hz ⊢
  refine ⟨rfl, mul_nonneg hmax hx, mul_nonneg hmax hy, mul_nonneg hmax hz, ?_⟩
  intro hlt
  rw [max_eq_left hlt.le]
  simp

/-- Witness for C4 at a concrete light, sphere and surface point. -/
theorem phong_illumination_correct_witness :
    (0 : ℝ) ≤ (vec3.mk 1 1 1).x ∧ (0 : ℝ) ≤ (vec3.mk 1 1 1).y ∧
      (0 : ℝ) ≤ (vec3.mk 1 1 1).z ∧
    ((Light.phong (vec3.mk 0 0 0) (vec3.mk 1 1 1) (vec3.mk 0 0 0)).illumination
        (Renderable.sphere (vec3.mk 0 0 4) 1) (vec3.mk 0 0 3)
        (Renderer.mk (vec3.mk 0 0 0) [] []) =
      max 0 (((vec3.mk 0 0 0 - vec3.mk 0 0 3).norm).dot
          ((Renderable.sphere (vec3.mk 0 0 4) 1).normal (vec3.mk 0 0 3))) •
        vec3.mk 1 1 1 ∧
    0 ≤ ((Light.phong (vec3.mk 0 0 0) (vec3.mk 1 1 1) (vec3.mk 0 0 0)).illumination
        (Renderable.sphere (vec3.mk 0 0 4) 1) (vec3.mk 0 0 3)
        (Renderer.mk (vec3.mk 0 0 0) [] [])).x ∧
    0 ≤ ((Light.phong (vec3.mk 0 0 0) (vec3.mk 1 1 1) (vec3.mk 0 0 0)).illumination
        (Renderable.sphere (vec3.mk 0 0 4) 1) (vec3.mk 0 0 3)
        (Renderer.mk (vec3.mk 0 0 0) [] [])).y ∧
    0 ≤ ((Light.phong (vec3.mk 0 0 0) (vec3.mk 1 1 1) (vec3.mk 0 0 0)).illumination
        (Renderable.sphere (vec3.mk 0 0 4) 1) (vec3.mk 0 0 3)
        (Renderer.mk (vec3.mk 0 0 0) [] [])).z ∧
    (((vec3.mk 0 0 0 - vec3.mk 0 0 3).norm).dot
        ((Renderable.sphere (vec3.mk 0 0 4) 1).normal (vec3.mk 0 0 3)) < 0 →
      (Light.phong (vec3.mk 0 0 0) (vec3.mk 1 1 1) (vec3.mk 0 0 0)).illumination
          (Renderable.sphere (vec3.mk 0 0 4) 1) (vec3.mk 0 0 3)
          (Renderer.mk (vec3.mk 0 0 0) [] []) = vec3.mk 0 0 0)) :=
  ⟨by norm_num, by norm_num, by norm_num,
    phong_illumination_correct (vec3.mk 0 0 0) (vec3.mk 1 1 1) (vec3.mk 0 0 0)
      (Renderable.sphere (vec3.mk 0 0 4) 1) (vec3.mk 0 0 3)
      (Renderer.mk (vec3.mk 0 0 0) [] [])
      (by norm_num) (by norm_num) (by norm_num)⟩

lemma sphere_intersect_eq (center : vec3) (radius : ℝ) (origin direction : vec3) :
    Sphere.intersect center radius origin direction =
      if 0 ≤ sphere_D center radius origin direction then
        (if min (sphere_t1 center radius origin direction)
              (sphere_t2 center radius origin direction) < 0 then
          (if 0 ≤ max (sphere_t1 center radius origin direction)
                (sphere_t2 center radius origin direction) then
            some { origin := origin, direction := direction,
                   renderable := Renderable.sphere center radius,
                   location := max (sphere_t1 center radius origin direction)
                       (sphere_t2 center radius origin direction) • direction + origin,
                   length := max (sphere_t1 center radius origin direction)
                       (sphere_t2 center radius origin direction) }
          else none)
        else
          some { origin := origin, direction := direction,
                 renderable := Renderable.sphere center radius,
                 location := min (sphere_t1 center radius origin direction)
                     (sphere_t2 center radius origin direction) • direction + origin,
                 length := min (sphere_t1 center radius origin direction)
                     (sphere_t2 center radius origin direction) })
      else none := by
  simp only [Sphere.intersect, sphere_t1, sphere_t2, sphere_D]
  split_ifs <;> first
    | rfl
    | (exfalso; linarith)

/-- Claim C1: the sphere intersection returns a hit exactly when the
discriminant `D = b^2 - 4ac` is nonnegative and at least one root
`(-b ± sqrt D)/(2a)` is nonnegative; the hit record then carries the
smallest nonnegative root as its distance and `origin + t * direction` as
its hit point, and there is no hit when `D < 0` or both roots are
negative. -/
theorem sphere_intersect_correct (center : vec3) (radius : ℝ)
    (origin direction : vec3) (hrad : 0 < radius)
    (hdir : direction.dot direction ≠ 0) :
    ((∃ rec, Sphere.intersect center radius origin direction = some rec) ↔
      (0 ≤ sphere_D center radius origin direction ∧
        (0 ≤ sphere_t1 center radius origin direction ∨
          0 ≤ sphere_t2 center radius origin direction))) ∧
    ∀ rec, Sphere.intersect center radius origin direction = some rec →
      0 ≤ rec.length ∧
      (rec.length = sphere_t1 center radius origin direction ∨
        rec.length = sphere_t2 center radius origin direction) ∧
      (0 ≤ sphere_t1 center radius origin direction →
        rec.length ≤ sphere_t1 center radius origin direction) ∧
      (0 ≤ sphere_t2 center radius origin direction →
        rec.length ≤ sphere_t2 center radius origin direction) ∧
      rec.location = rec.length • direction + origin := by
  rw [sphere_intersect_eq]
  set t1 := sphere_t1 center radius origin direction with ht1
  set t2 := sphere_t2 center radius origin direction with ht2
  set D := sphere_D center radius origin direction with hDdef
  by_cases h1 : 0 ≤ D
  · by_cases h2 : min t1 t2 < 0
    · by_cases h3 : 0 ≤ max t1 t2
      · simp only [if_pos h1, if_pos h2, if_pos h3]
        constructor
        · constructor
          · intro _
            exact ⟨h1, le_max_iff.mp h3⟩
          · intro _
            exact ⟨_, rfl⟩
        · rintro rec hrec
          obtain rfl := (Option.some.inj hrec).symm
          refine ⟨h3, ?_, ?_, ?_, rfl⟩
          · rcases max_choice t1 t2 with h | h
            · exact Or.inl h
            · exact Or.inr h
          · intro h1t
            rcases min_choice t1 t2 with hm | hm
            · rw [hm] at h2; linarith
            · rw [hm] at h2
              exact max_le le_rfl (by linarith)
          · intro h2t
            rcases min_choice t1 t2 with hm | hm
            · rw [hm] at h2
              exact max_le (by linarith) le_rfl
            · rw [hm] at h2; linarith
      · simp only [if_pos h1, if_pos h2, if_neg h3]
        push_neg at h3
        constructor
        · constructor
          · rintro ⟨rec, hrec⟩
            exact absurd hrec (by simp)
          · rintro ⟨-, ht | ht⟩
            · linarith [le_max_left t1 t2]
            · linarith [le_max_right t1 t2]
        · intro rec hrec
          exact absurd hrec (by simp)
    · push_neg at h2
      simp only [if_pos h1, if_neg (not_lt.mpr h2)]
      constructor
      · constructor
        · intro _
          exact ⟨h1, Or.inl (le_trans h2 (min_le_left t1 t2))⟩
        · intro _
          exact ⟨_, rfl⟩
      · rintro rec hrec
        obtain rfl := (Option.some.inj hrec).symm
        refine ⟨h2, ?_, fun _ => min_le_left _ _, fun _ => min_le_right _ _, rfl⟩
        rcases min_choice t1 t2 with h | h
        · exact Or.inl h
        · exact Or.inr h
  · simp only [if_neg h1]
    constructor
    · constructor
      · rintro ⟨rec, hrec⟩
        exact absurd hrec (by simp)
      · rintro ⟨hD, -⟩
        exact absurd hD h1
    · intro rec hrec
      exact absurd hrec (by simp)

/-- Witness for C1: the sphere of radius 1/2 at (0,0,4) against the ray
from the origin along (0,0,1). -/
theorem sphere_intersect_correct_witness :
    (0 : ℝ) < 1/2 ∧ (vec3.mk 0 0 1).dot (vec3.mk 0 0 1) ≠ 0 ∧
    (((∃ rec, Sphere.intersect (vec3.mk 0 0 4) (1/2) (vec3.mk 0 0 0)
          (vec3.mk 0 0 1) = some rec) ↔
        (0 ≤ sphere_D (vec3.mk 0 0 4) (1/2) (vec3.mk 0 0 0) (vec3.mk 0 0 1) ∧
          (0 ≤ sphere_t1 (vec3.mk 0 0 4) (1/2) (vec3.mk 0 0 0) (vec3.mk 0 0 1) ∨
            0 ≤ sphere_t2 (vec3.mk 0 0 4) (1/2) (vec3.mk 0 0 0) (vec3.mk 0 0 1)))) ∧
      ∀ rec, Sphere.intersect (vec3.mk 0 0 4) (1/2) (vec3.mk 0 0 0)
          (vec3.mk 0 0 1) = some rec →
        0 ≤ rec.length ∧
        (rec.length = sphere_t1 (vec3.mk 0 0 4) (1/2) (vec3.mk 0 0 0) (vec3.mk 0 0 1) ∨
          rec.length = sphere_t2 (vec3.mk 0 0 4) (1/2) (vec3.mk 0 0 0) (vec3.mk 0 0 1)) ∧
        (0 ≤ sphere_t1 (vec3.mk 0 0 4) (1/2) (vec3.mk 0 0 0) (vec3.mk 0 0 1) →
          rec.length ≤ sphere_t1 (vec3.mk 0 0 4) (1/2) (vec3.mk 0 0 0) (vec3.mk 0 0 1)) ∧
        (0 ≤ sphere_t2 (vec3.mk 0 0 4) (1/2) (vec3.mk 0 0 0) (vec3.mk 0 0 1) →
          rec.length ≤ sphere_t2 (vec3.mk 0 0 4) (1/2) (vec3.mk 0 0 0) (vec3.mk 0 0 1)) ∧
        rec.location = rec.length • vec3.mk 0 0 1 + vec3.mk 0 0 0) :=
  ⟨by norm_num, by norm_num,
    sphere_intersect_correct (vec3.mk 0 0 4) (1/2) (vec3.mk 0 0 0) (vec3.mk 0 0 1)
      (by norm_num) (by norm_num)⟩

/-- Counterexample for C8: a zero-radius (degenerate) sphere is not treated
as never-intersected: the ray from the origin along (0,0,1) through the
degenerate sphere at (0,0,4) returns a hit record of distance 4, not a
no-hit result. -/
theorem zero_radius_sphere_hit_cex :
    Sphere.intersect (vec3.mk 0 0 4) 0 (vec3.mk 0 0 0) (vec3.mk 0 0 1) =
      some (RayIntersection.mk (vec3.mk 0 0 0) (vec3.mk 0 0 1)
        (Renderable.sphere (vec3.mk 0 0 4) 0) (vec3.mk 0 0 4) 4) := by
  simp only [Sphere.intersect, vec3.sub_mk, vec3.dot_mk, vec3.smul_mk, vec3.add_mk]
  norm_num [Real.sqrt_zero, min_def, max_def]

/-- Claim C8 as amended: the intersection code runs the ordinary quadratic
on a zero-radius sphere with no special handling, so a ray of unit
direction aimed exactly at the centre of the degenerate sphere from distance
`t ≥ 0` produces a hit at the centre with distance `t` (rather than the
no-hit result the spec recommends); in Python a zero-length ray direction
or any `Triangle` construction instead raises an error. -/
theorem zero_radius_sphere_hit (center origin direction : vec3) (t : ℝ)
    (hunit : direction.dot direction = 1)
    (hcenter : center = t • direction + origin) (ht : 0 ≤ t) :
    Sphere.intersect center 0 origin direction =
      some (RayIntersection.mk origin direction
        (Renderable.sphere center 0) center t) := by
  have hB : direction.dot (origin - center) = -t := by
    subst hcenter
    obtain ⟨dx, dy, dz⟩ := direction
    obtain ⟨ox, oy, oz⟩ := origin
    simp only [vec3.dot_mk] at hunit
    simp only [vec3.smul_mk, vec3.add_mk, vec3.sub_mk, vec3.dot_mk]
    linear_combination (-t) * hunit
  have hC : (origin - center).dot (origin - center) = t * t := by
    subst hcenter
    obtain ⟨dx, dy, dz⟩ := direction
    obtain ⟨ox, oy, oz⟩ := origin
    simp only [vec3.dot_mk] at hunit
    simp only [vec3.smul_mk, vec3.add_mk, vec3.sub_mk, vec3.dot_mk]
    linear_combination (t * t) * hunit
  have hD0 : sphere_D center 0 origin direction = 0 := by
    simp only [sphere_D, hB, hC, hunit]
    ring
  have ht1 : sphere_t1 center 0 origin direction = t := by
    simp only [sphere_t1, hD0, Real.sqrt_zero, hB, hunit]
    ring
  have ht2 : sphere_t2 center 0 origin direction = t := by
    simp only [sphere_t2, hD0, Real.sqrt_zero, hB, hunit]
    ring
  rw [sphere_intersect_eq, hD0, ht1, ht2]
  rw [if_pos le_rfl, min_self, max_self, if_neg (not_lt.mpr ht)]
  rw [← hcenter]

/-- Witness for the amended C8 theorem at the concrete degenerate sphere
(centre (0,0,4), radius 0) and the unit ray (0,0,1) with t = 4. -/
theorem zero_radius_sphere_hit_witness :
    (vec3.mk 0 0 1).dot (vec3.mk 0 0 1) = 1 ∧
    vec3.mk 0 0 4 = (4 : ℝ) • vec3.mk 0 0 1 + vec3.mk 0 0 0 ∧
    (0 : ℝ) ≤ 4 ∧
    Sphere.intersect (vec3.mk 0 0 4) 0 (vec3.mk 0 0 0) (vec3.mk 0 0 1) =
      some (RayIntersection.mk (vec3.mk 0 0 0) (vec3.mk 0 0 1)
        (Renderable.sphere (vec3.mk 0 0 4) 0) (vec3.mk 0 0 4) 4) :=
  ⟨by norm_num, by norm_num, by norm_num,
    zero_radius_sphere_hit (vec3.mk 0 0 4) (vec3.mk 0 0 0) (vec3.mk 0 0 1) 4
      (by norm_num) (by norm_num) (by norm_num)⟩

lemma nearestFold_spec (t : List RayIntersection) : ∀ h : RayIntersection,
    ∃ l1 l2, h :: t = l1 ++ (t.foldl nearestStep h) :: l2 ∧
      (∀ r' ∈ l1, (t.foldl nearestStep h).length < r'.length) ∧
      (∀ r' ∈ h :: t, (t.foldl nearestStep h).length ≤ r'.length) := by
  induction t with
  | nil =>
    intro h
    exact ⟨[], [], rfl, by simp, by simp⟩
  | cons y t' ih =>
    intro h
    rw [List.foldl_cons]
    by_cases hc : y.length < h.length
    · rw [show nearestStep h y = y from if_pos hc]
      obtain ⟨l1, l2, hdec, hlt, hle⟩ := ih y
      refine ⟨h :: l1, l2, ?_, ?_, ?_⟩
      · rw [List.cons_append, ← hdec]
      · intro r' hr'
        rcases List.mem_cons.mp hr' with rfl | hr'
        · have := hle y (by simp)
          linarith
        · exact hlt r' hr'
      · intro r' hr'
        rcases List.mem_cons.mp hr' with rfl | hr'
        · have := hle y (by simp)
          linarith
        · exact hle r' hr'
    · rw [show nearestStep h y = h from if_neg hc]
      obtain ⟨l1, l2, hdec, hlt, hle⟩ := ih h
      have hy : (t'.foldl nearestStep h).length ≤ y.length := by
        have hh : (t'.foldl nearestStep h).length ≤ h.length := hle h (by simp)
        have := not_lt.mp hc
        linarith
      cases l1 with
      | nil =>
        simp only [List.nil_append] at hdec
        refine ⟨[], y :: l2, ?_, by simp, ?_⟩
        · rw [List.nil_append]
          rw [List.cons.injEq] at hdec ⊢
          exact ⟨hdec.1, by rw [List.cons.injEq]; exact ⟨rfl, hdec.2⟩⟩
        · intro r' hr'
          rcases List.mem_cons.mp hr' with rfl | hr'
          · exact hle r' (by simp)
          · rcases List.mem_cons.mp hr' with rfl | hr''
            · exact hy
            · exact hle r' (List.mem_cons.mpr (Or.inr hr''))
      | cons A l1' =>
        rw [List.cons_append, List.cons.injEq] at hdec
        obtain ⟨hhA, hdec'⟩ := hdec
        refine ⟨h :: y :: l1', l2, ?_, ?_, ?_⟩
        · rw [List.cons_append, List.cons_append, List.cons.injEq]
          exact ⟨rfl, by rw [List.cons.injEq]; exact ⟨rfl, hdec'⟩⟩
        · intro r' hr'
          rcases List.mem_cons.mp hr' with rfl | hr'
          · have := hlt A (by simp)
            rw [← hhA] at this
            exact this
          · rcases List.mem_cons.mp hr' with rfl | hr''
            · have hh := hlt A (by simp)
              rw [← hhA] at hh
              have := not_lt.mp hc
              linarith
            · exact hlt r' (by simp [hr''])
        · intro r' hr'
          rcases List.mem_cons.mp hr' with rfl | hr'
          · exact hle r' (by simp)
          · rcases List.mem_cons.mp hr' with rfl | hr''
            · exact hy
            · exact hle r' (by simp [hr''])

/-- Claim C2: `raycast` intersects the normalized ray against every
renderable not excluded, discards non-hits (this is the candidate list
`raycastCandidates`), returns `none` exactly when no candidate remains, and
otherwise returns a candidate of minimum hit distance, with ties going to
the first candidate in iteration order (every strictly earlier candidate
has a strictly greater distance). -/
theorem raycast_nearest (rend : Renderer) (origin direction : vec3)
    (exclude : List Renderable) :
    (rend.raycast origin direction exclude = none ↔
      raycastCandidates rend origin direction.norm exclude = []) ∧
    ∀ rec, rend.raycast origin direction exclude = some rec →
      ∃ l1 l2, raycastCandidates rend origin direction.norm exclude = l1 ++ rec :: l2 ∧
        (∀ r' ∈ l1, rec.length < r'.length) ∧
        (∀ r' ∈ raycastCandidates rend origin direction.norm exclude,
          rec.length ≤ r'.length) := by
  unfold Renderer.raycast
  cases hc : raycastCandidates rend origin direction.norm exclude with
  | nil =>
    constructor
    · simp
    · intro rec hrec
      exact absurd hrec (by simp)
  | cons h t =>
    constructor
    · simp
    · intro rec hrec
      have hrec' : t.foldl nearestStep h = rec := Option.some.inj hrec
      obtain ⟨l1, l2, hdec, hlt, hle⟩ := nearestFold_spec t h
      rw [hrec'] at hdec hlt hle
      exact ⟨l1, l2, hdec, hlt, hle⟩

lemma norm001 : (vec3.mk (0:ℝ) 0 1).norm = vec3.mk 0 0 1 := by
  unfold vec3.norm vec3.length
  norm_num [Real.sqrt_one]

lemma intersectA_eval :
    Sphere.intersect (vec3.mk 0 0 8) (1/2) (vec3.mk 0 0 0) (vec3.mk 0 0 1) =
      some (RayIntersection.mk (vec3.mk 0 0 0) (vec3.mk 0 0 1) sphereA
        (vec3.mk 0 0 (15/2)) (15/2)) := by
  simp only [Sphere.intersect, vec3.sub_mk, vec3.dot_mk, vec3.smul_mk, vec3.add_mk, sphereA]
  norm_num [Real.sqrt_one, min_def, max_def]

lemma intersectB_eval :
    Sphere.intersect (vec3.mk 0 0 4) (1/2) (vec3.mk 0 0 0) (vec3.mk 0 0 1) =
      some (RayIntersection.mk (vec3.mk 0 0 0) (vec3.mk 0 0 1) sphereB
        (vec3.mk 0 0 (7/2)) (7/2)) := by
  simp only [Sphere.intersect, vec3.sub_mk, vec3.dot_mk, vec3.smul_mk, vec3.add_mk, sphereB]
  norm_num [Real.sqrt_one, min_def, max_def]

lemma intersectA_eval' :
    sphereA.intersect (vec3.mk 0 0 0) (vec3.mk 0 0 1) = some recA := by
  show Sphere.intersect (vec3.mk 0 0 8) (1/2) (vec3.mk 0 0 0) (vec3.mk 0 0 1) = some recA
  exact intersectA_eval

lemma intersectB_eval' :
    sphereB.intersect (vec3.mk 0 0 0) (vec3.mk 0 0 1) = some recB := by
  show Sphere.intersect (vec3.mk 0 0 4) (1/2) (vec3.mk 0 0 0) (vec3.mk 0 0 1) = some recB
  exact intersectB_eval

lemma candsC2_eval :
    raycastCandidates rendC2 (vec3.mk 0 0 0) ((vec3.mk 0 0 1).norm) [] = [recA, recB] := by
  rw [norm001]
  unfold raycastCandidates
  have hfilter : rendC2.renderables.filter (fun r => decide (¬ r ∈ ([] : List Renderable)))
      = [sphereA, sphereB] := by
    simp [rendC2]
  rw [hfilter]
  simp only [List.filterMap_cons, List.filterMap_nil, intersectA_eval', intersectB_eval']

lemma raycastC2_eval :
    rendC2.raycast (vec3.mk 0 0 0) (vec3.mk 0 0 1) [] = some recB := by
  unfold Renderer.raycast
  rw [candsC2_eval]
  simp only [List.foldl_cons, List.foldl_nil]
  have hstep : nearestStep recA recB = recB := by
    unfold nearestStep recA recB
    norm_num
  rw [hstep]

/-- Witness for C2: in the two-sphere scene the raycast returns the hit of
the nearer sphere (distance 7/2), which is minimal among both candidates. -/
theorem raycast_nearest_witness :
    rendC2.raycast (vec3.mk 0 0 0) (vec3.mk 0 0 1) [] = some recB ∧
    ∃ l1 l2, raycastCandidates rendC2 (vec3.mk 0 0 0) ((vec3.mk 0 0 1).norm) []
        = l1 ++ recB :: l2 ∧
      (∀ r' ∈ l1, recB.length < r'.length) ∧
      (∀ r' ∈ raycastCandidates rendC2 (vec3.mk 0 0 0) ((vec3.mk 0 0 1).norm) [],
        recB.length ≤ r'.length) :=
  ⟨raycastC2_eval,
    (raycast_nearest rendC2 (vec3.mk 0 0 0) (vec3.mk 0 0 1) []).2 recB raycastC2_eval⟩

lemma candsC5_eval :
    raycastCandidates rendC5 (vec3.mk 0 0 0) ((vec3.mk 0 0 1).norm) [] = [recB] := by
  rw [norm001]
  unfold raycastCandidates
  have hfilter : rendC5.renderables.filter (fun r => decide (¬ r ∈ ([] : List Renderable)))
      = [sphereB] := by
    simp [rendC5]
  rw [hfilter]
  simp only [List.filterMap_cons, List.filterMap_nil, intersectB_eval']

lemma raycastC5_eval :
    rendC5.raycast (vec3.mk 0 0 0) (vec3.mk 0 0 1) [] = some recB := by
  unfold Renderer.raycast
  rw [candsC5_eval]
  simp only [List.foldl_nil]

lemma raycastCastC5 :
    rendC5.raycast rendC5.camera
      (vec3.mk (((1:ℕ):ℝ) / ((2:ℕ):ℝ) - 0.5) (((1:ℕ):ℝ) / ((2:ℕ):ℝ) - 0.5) 1) []
      = some recB := by
  have hd : vec3.mk (((1:ℕ):ℝ) / ((2:ℕ):ℝ) - 0.5) (((1:ℕ):ℝ) / ((2:ℕ):ℝ) - 0.5) 1
      = vec3.mk 0 0 1 := by norm_num
  rw [hd]
  exact raycastC5_eval

lemma get_lightingC5_eval :
    rendC5.get_lighting recB = some (vec3.mk 2 2 2) := by
  unfold Renderer.get_lighting rendC5
  simp [Light.illumination]

lemma intTrunc_int (n : ℤ) : intTrunc (n : ℝ) = n := by
  unfold intTrunc
  split_ifs with h
  · exact Int.floor_intCast n
  · exact Int.ceil_intCast n

/-- Counterexample for C5: with a light of colour (2,2,2) the shaded colour
of the centre pixel is (2,2,2) and `render` returns channel value
`int(2*255) = 510`, outside the 8-bit range [0,255]: the source neither
clamps nor rounds. -/
theorem render_overflow_cex :
    rendC5.render 1 1 2 2 = some (510, 510, 510) ∧ (255 : ℤ) < 510 := by
  constructor
  · unfold Renderer.render
    simp only [raycastCastC5, get_lightingC5_eval]
    rw [show ((vec3.mk (2:ℝ) 2 2).x * 255 : ℝ) = ((510:ℤ) : ℝ) by norm_num,
      intTrunc_int]
  · norm_num

lemma intTrunc_bounds (c : ℝ) (h0 : 0 ≤ c) (h1 : c ≤ 1) :
    0 ≤ intTrunc (c * 255) ∧ intTrunc (c * 255) ≤ 255 := by
  have hm0 : (0:ℝ) ≤ c * 255 := mul_nonneg h0 (by norm_num)
  unfold intTrunc
  rw [if_pos hm0]
  constructor
  · exact Int.floor_nonneg.mpr hm0
  · have hle : c * 255 ≤ ((255:ℤ):ℝ) := by push_cast; linarith
    calc ⌊c * 255⌋ ≤ ⌊((255:ℤ):ℝ)⌋ := Int.floor_mono hle
      _ = 255 := Int.floor_intCast 255

/-- Claim C5 as amended: on a hit whose shading succeeds, `render` maps each
colour channel through truncation `int(channel * 255)` with no clamping and
no rounding; the result is an 8-bit value in [0,255] only when the shaded
channel already lies in [0,1]. -/
theorem render_truncates (rend : Renderer) (x y width height : ℕ)
    (rec : RayIntersection) (l : vec3)
    (hray : rend.raycast rend.camera
      (vec3.mk ((x : ℝ) / (width : ℝ) - 0.5) ((y : ℝ) / (height : ℝ) - 0.5) 1) []
        = some rec)
    (hlight : rend.get_lighting rec = some l) :
    rend.render x y width height =
      some (intTrunc (l.x * 255), intTrunc (l.y * 255), intTrunc (l.z * 255)) ∧
    (0 ≤ l.x → l.x ≤ 1 → 0 ≤ intTrunc (l.x * 255) ∧ intTrunc (l.x * 255) ≤ 255) ∧
    (0 ≤ l.y → l.y ≤ 1 → 0 ≤ intTrunc (l.y * 255) ∧ intTrunc (l.y * 255) ≤ 255) ∧
    (0 ≤ l.z → l.z ≤ 1 → 0 ≤ intTrunc (l.z * 255) ∧ intTrunc (l.z * 255) ≤ 255) := by
  refine ⟨?_, fun h0 h1 => intTrunc_bounds l.x h0 h1,
    fun h0 h1 => intTrunc_bounds l.y h0 h1, fun h0 h1 => intTrunc_bounds l.z h0 h1⟩
  unfold Renderer.render
  simp only [hray, hlight]

/-- Witness for the amended C5 theorem at the concrete one-light scene. -/
theorem render_truncates_witness :
    rendC5.raycast rendC5.camera
        (vec3.mk (((1:ℕ):ℝ) / ((2:ℕ):ℝ) - 0.5) (((1:ℕ):ℝ) / ((2:ℕ):ℝ) - 0.5) 1) []
      = some recB ∧
    rendC5.get_lighting recB = some (vec3.mk 2 2 2) ∧
    (rendC5.render 1 1 2 2 =
        some (intTrunc ((vec3.mk (2:ℝ) 2 2).x * 255),
          intTrunc ((vec3.mk (2:ℝ) 2 2).y * 255),
          intTrunc ((vec3.mk (2:ℝ) 2 2).z * 255)) ∧
      (0 ≤ (vec3.mk (2:ℝ) 2 2).x → (vec3.mk (2:ℝ) 2 2).x ≤ 1 →
        0 ≤ intTrunc ((vec3.mk (2:ℝ) 2 2).x * 255) ∧
          intTrunc ((vec3.mk (2:ℝ) 2 2).x * 255) ≤ 255) ∧
      (0 ≤ (vec3.mk (2:ℝ) 2 2).y → (vec3.mk (2:ℝ) 2 2).y ≤ 1 →
        0 ≤ intTrunc ((vec3.mk (2:ℝ) 2 2).y * 255) ∧
          intTrunc ((vec3.mk (2:ℝ) 2 2).y * 255) ≤ 255) ∧
      (0 ≤ (vec3.mk (2:ℝ) 2 2).z → (vec3.mk (2:ℝ) 2 2).z ≤ 1 →
        0 ≤ intTrunc ((vec3.mk (2:ℝ) 2 2).z * 255) ∧
          intTrunc ((vec3.mk (2:ℝ) 2 2).z * 255) ≤ 255)) :=
  ⟨raycastCastC5, get_lightingC5_eval,
    render_truncates rendC5 1 1 2 2 recB (vec3.mk 2 2 2) raycastCastC5 get_lightingC5_eval⟩
